import Mathlib

/-!
Shallow embedding of `docs/source/conf.py` from the libvxsdr repository.

The file is a Sphinx configuration script.  At module-evaluation time it
runs three kinds of top-level statements, in textual order:

* `import subprocess` (a library import, with no observable effect here);
* `subprocess.call('doxygen', shell=True)`, whose return value (the exit
  status of the external process) is discarded by the statement;
* simple assignments of string, list and dict literals to module-level
  configuration names.

We embed the script as the literal list of its statements, `confStmts`,
and interpret it with `execStmt` / `evalModule`.  The exit status of the
external process is not determined by the script, so it is a parameter
`exitStatus` of the evaluation.  The interpreter threads an environment
of bindings (newest first, matching Python rebinding semantics) together
with a trace of observable events, and runs in `Except String` so that a
statement that raised would be representable as an `error` outcome.
-/

namespace Conf

/-- A Python value occurring in the configuration file: a string literal,
a list of string literals, or a dict from strings to strings (kept as an
association list in source order). -/
inductive Value where
  | str (s : String)
  | strList (l : List String)
  | strDict (d : List (String × String))
  deriving DecidableEq, Repr

/-- Model of `subprocess.call(cmd, shell=True)`: runs the external command
and returns the exit status of the process.  The status depends on the
environment, not on the script, hence the `exitStatus` parameter. -/
def subprocessCall (cmd : String) (shell : Bool) (exitStatus : Int) : Int :=
  let _cmd := cmd
  let _shell := shell
  exitStatus

/-- A top-level statement of `conf.py`. -/
inductive Stmt where
  | importLib (modName : String)
  | callProc (cmd : String)
  | assign (name : String) (v : Value)
  deriving DecidableEq, Repr

/-- The name bound by an assignment statement, if any. -/
def Stmt.assignedName : Stmt → Option String
  | .assign n _ => some n
  | _ => none

/-- The (name, value) pair of an assignment statement, if any. -/
def Stmt.assignPair : Stmt → Option (String × Value)
  | .assign n v => some (n, v)
  | _ => none

/-- An observable event of the module evaluation: an external process
invocation, or the assignment of a module-level name. -/
inductive Event where
  | procCall (cmd : String)
  | assigned (name : String)
  deriving DecidableEq, Repr

/-- Whether an event is an external process invocation. -/
def Event.isCall : Event → Bool
  | .procCall _ => true
  | _ => false

/-- Whether an event is an assignment of a module-level name. -/
def Event.isAssigned : Event → Bool
  | .assigned _ => true
  | _ => false

/-- The interpreter state: the environment of module-level bindings
(newest binding first) and the trace of events so far. -/
structure ExecState where
  env : List (String × Value)
  trace : List Event
  deriving DecidableEq, Repr

/-- One step of module evaluation.  `importLib` binds nothing observable
here; `callProc cmd` invokes the external process and discards its exit
status, exactly as the bare-expression statement
`subprocess.call('doxygen', shell=True)` does; `assign` rebinds a name. -/
def execStmt (exitStatus : Int) (s : ExecState) : Stmt → Except String ExecState
  | .importLib _ => .ok s
  | .callProc cmd =>
      let _discarded := subprocessCall cmd true exitStatus
      .ok { s with trace := s.trace ++ [.procCall cmd] }
  | .assign n v =>
      .ok { env := (n, v) :: s.env, trace := s.trace ++ [.assigned n] }

/-- The statements of `docs/source/conf.py`, in textual order. -/
def confStmts : List Stmt :=
  [ .importLib "subprocess",
    .callProc "doxygen",
    .assign "project" (.str "libvxsdr"),
    .assign "copyright" (.str "2024, Vesperix Corporation"),
    .assign "author" (.str "Vesperix Corporation"),
    .assign "release" (.str "0.19.7"),
    .assign "extensions" (.strList ["sphinx.ext.mathjax", "breathe"]),
    .assign "breathe_projects" (.strDict [("vxsdr", "../xml/")]),
    .assign "breathe_default_project" (.str "vxsdr"),
    .assign "templates_path" (.strList ["_templates"]),
    .assign "exclude_patterns" (.strList []),
    .assign "html_theme" (.str "furo"),
    .assign "html_theme_options" (.strDict []),
    .assign "latex_engine" (.str "pdflatex"),
    .assign "html_css_files" (.strList ["custom.css"]),
    .assign "html_static_path" (.strList ["_static"]),
    .assign "html_logo" (.str "_static/vesperix_logo.png") ]

/-- Module evaluation of `conf.py`: run every top-level statement in
order, starting from the empty environment and trace. -/
def evalModule (exitStatus : Int) : Except String ExecState :=
  confStmts.foldlM (execStmt exitStatus) ⟨[], []⟩

/-- The value bound to `name` after module evaluation (the most recent
assignment wins), or `none` if evaluation raised or never bound it. -/
def finalValue (exitStatus : Int) (name : String) : Option Value :=
  match evalModule exitStatus with
  | .ok s => s.env.lookup name
  | .error _ => none

/-- The event trace of module evaluation (empty if evaluation raised). -/
def evalTrace (exitStatus : Int) : List Event :=
  match evalModule exitStatus with
  | .ok s => s.trace
  | .error _ => []

/-- The leading path component of a `/`-separated path string. -/
def leadingComponent (p : String) : String :=
  (p.data.takeWhile (fun c => c != '/')).asString

/-- Claim C1: the exit status of the external doxygen invocation is
discarded: for every possible exit status, module evaluation completes
without raising, and every subsequently assigned configuration value is
identical regardless of that exit status. -/
theorem evalModule_ignores_exit_status (e1 e2 : Int) :
    (∃ s, evalModule e1 = Except.ok s) ∧
      ∀ name, finalValue e1 name = finalValue e2 name :=
  ⟨⟨_, rfl⟩, fun _ => rfl⟩

/-- Claim C2: module evaluation performs the doxygen invocation exactly
once, strictly before any configuration assignment: the event trace is
the doxygen call followed only by events that are assignments and none of
which is a process call. -/
theorem doxygen_call_precedes_all_assignments (exitStatus : Int) :
    ∃ post : List Event,
      evalTrace exitStatus = Event.procCall "doxygen" :: post ∧
        post.all (fun e => !e.isCall) = true ∧
        post.all Event.isAssigned = true :=
  ⟨_, rfl, rfl, rfl⟩

/-- Claim C3: every module-level configuration name is assigned exactly
once (the list of assigned names has no duplicates), so the final value
of each option equals the value at its single assignment. -/
theorem each_config_assigned_once (exitStatus : Int) :
    (confStmts.filterMap Stmt.assignedName).Nodup ∧
      (confStmts.filterMap Stmt.assignPair).all
        (fun p => finalValue exitStatus p.1 == some p.2) = true :=
  ⟨by decide, rfl⟩

/-- Claim C4: after module evaluation, the project-identity triple holds
the static values from the source. -/
theorem project_identity_values (exitStatus : Int) :
    finalValue exitStatus "project" = some (.str "libvxsdr") ∧
      finalValue exitStatus "author" = some (.str "Vesperix Corporation") ∧
      finalValue exitStatus "copyright" =
        some (.str "2024, Vesperix Corporation") :=
  ⟨rfl, rfl, rfl⟩

/-- Claim C5: after module evaluation, the release version string equals
"0.19.7". -/
theorem release_version_value (exitStatus : Int) :
    finalValue exitStatus "release" = some (.str "0.19.7") :=
  rfl

/-- Claim C6: after module evaluation, the extension list has exactly two
elements, the first being "sphinx.ext.mathjax" and the second and last
being "breathe". -/
theorem extensions_value (exitStatus : Int) :
    ∃ l, finalValue exitStatus "extensions" = some (Value.strList l) ∧
      l = ["sphinx.ext.mathjax", "breathe"] ∧ l.length = 2 ∧
      l.head? = some "sphinx.ext.mathjax" ∧ l.get? 1 = some "breathe" ∧
      l.getLast? = some "breathe" :=
  ⟨_, rfl, rfl, rfl, rfl, rfl, rfl⟩

/-- Claim C7: after module evaluation, `breathe_projects` is the
one-entry mapping from "vxsdr" to "../xml/", `breathe_default_project`
is "vxsdr", and looking the default project up in the mapping succeeds,
yielding "../xml/". -/
theorem breathe_config_consistent (exitStatus : Int) :
    ∃ d, finalValue exitStatus "breathe_projects" = some (Value.strDict d) ∧
      d = [("vxsdr", "../xml/")] ∧
      finalValue exitStatus "breathe_default_project" =
        some (Value.str "vxsdr") ∧
      d.lookup "vxsdr" = some "../xml/" :=
  ⟨_, rfl, rfl, rfl, rfl⟩

/-- Claim C8: after module evaluation, `html_static_path` is
`["_static"]`, `templates_path` is `["_templates"]`, and the configured
logo path lies under the static-asset directory: its leading path
component equals the sole element of `html_static_path`. -/
theorem static_paths_and_logo (exitStatus : Int) :
    ∃ sp logo,
      finalValue exitStatus "html_static_path" = some (Value.strList sp) ∧
      sp = ["_static"] ∧
      finalValue exitStatus "templates_path" =
        some (Value.strList ["_templates"]) ∧
      finalValue exitStatus "html_logo" = some (Value.str logo) ∧
      logo = "_static/vesperix_logo.png" ∧
      sp.headD "" = leadingComponent logo :=
  ⟨_, _, rfl, rfl, rfl, rfl, rfl, by decide⟩

/-- Claim C9: after module evaluation, `html_css_files` is the
one-element sequence `["custom.css"]` and `latex_engine` equals
"pdflatex". -/
theorem css_files_and_latex_engine (exitStatus : Int) :
    finalValue exitStatus "html_css_files" =
        some (Value.strList ["custom.css"]) ∧
      finalValue exitStatus "latex_engine" = some (Value.str "pdflatex") :=
  ⟨rfl, rfl⟩

/-- Claim C10: after module evaluation, `exclude_patterns` is the empty
list and `html_theme_options` is the empty mapping, while `html_theme`
is set to "furo". -/
theorem empty_excludes_and_theme_options (exitStatus : Int) :
    finalValue exitStatus "exclude_patterns" = some (Value.strList []) ∧
      finalValue exitStatus "html_theme_options" = some (Value.strDict []) ∧
      finalValue exitStatus "html_theme" = some (Value.str "furo") :=
  ⟨rfl, rfl, rfl⟩

end Conf
